import Mathlib

/-!
Verification of the Terra-Control environmental controller against its
specification.  The frontend page `frontend_tsx/src/pages/LEDControl.tsx`
contains the daily light-cycle computation (`interpolate`,
`updateCycleLightPreview`), the composite swatch (`updateLightPreview`),
and the LED state setters (`setLEDPower`, `setLEDColor`,
`setNaturalLightSettings`); these are embedded directly.  The backend
modules (ledStrip.rs, lightControl.rs, schedule.rs) are absent from the
sources; the season-weight blend, the OverheatGuard state machine, and the
validated ScheduleStore are modelled from the specification text and
marked as such.
-/

namespace TerraControl

/-- An RGBWW quintuple: red, green, blue, warm-white, cool-white channel
values, each an integer (in the data model, in [0,255]). -/
structure RGBWW where
  r : ℤ
  g : ℤ
  b : ℤ
  ww : ℤ
  cw : ℤ
  deriving DecidableEq

/-- The three daily presets (fields `morning_r` … `evening_cw` of the
`NaturalLightPresets` interface in LEDControl.tsx, grouped per preset). -/
structure NaturalLightPresets where
  morning : RGBWW
  noon : RGBWW
  evening : RGBWW
  deriving DecidableEq

/-- JavaScript `Math.round`: round half toward positive infinity. -/
def jsRound (x : ℚ) : ℤ := ⌊x + 1/2⌋

/-- `interpolate` from LEDControl.tsx:
`Math.round(start + (end - start) * factor)`. -/
def interpolate (start endVal : ℤ) (factor : ℚ) : ℤ :=
  jsRound ((start : ℚ) + ((endVal : ℚ) - (start : ℚ)) * factor)

/-- `const morningTime = 7` in `updateCycleLightPreview`. -/
def morningTime : ℚ := 7

/-- `const noonTime = 12` in `updateCycleLightPreview`. -/
def noonTime : ℚ := 12

/-- `const eveningTime = 19` in `updateCycleLightPreview`. -/
def eveningTime : ℚ := 19

/-- The daily-cycle quintuple computed by `updateCycleLightPreview`
(LEDControl.tsx lines 174–196): piecewise linear interpolation between the
presets over the segments [morning, noon) and [noon, evening), holding the
evening preset otherwise. -/
def updateCycleColor (timeValue : ℚ) (p : NaturalLightPresets) : RGBWW :=
  if morningTime ≤ timeValue ∧ timeValue < noonTime then
    let factor := (timeValue - morningTime) / (noonTime - morningTime)
    ⟨interpolate p.morning.r p.noon.r factor,
     interpolate p.morning.g p.noon.g factor,
     interpolate p.morning.b p.noon.b factor,
     interpolate p.morning.ww p.noon.ww factor,
     interpolate p.morning.cw p.noon.cw factor⟩
  else if noonTime ≤ timeValue ∧ timeValue < eveningTime then
    let factor := (timeValue - noonTime) / (eveningTime - noonTime)
    ⟨interpolate p.noon.r p.evening.r factor,
     interpolate p.noon.g p.evening.g factor,
     interpolate p.noon.b p.evening.b factor,
     interpolate p.noon.ww p.evening.ww factor,
     interpolate p.noon.cw p.evening.cw factor⟩
  else
    p.evening

/-- The default presets from the `useState<NaturalLightPresets>` initial
value in LEDControl.tsx. -/
def defaultPresets : NaturalLightPresets :=
  ⟨⟨255, 180, 100, 200, 50⟩, ⟨255, 240, 220, 50, 255⟩, ⟨255, 140, 50, 255, 0⟩⟩

/-- Helper: on [morningTime, noonTime) the daily cycle takes the first
branch of `updateCycleColor`. -/
lemma updateCycleColor_morning (timeValue : ℚ) (p : NaturalLightPresets)
    (h1 : morningTime ≤ timeValue) (h2 : timeValue < noonTime) :
    updateCycleColor timeValue p =
      ⟨interpolate p.morning.r p.noon.r
          ((timeValue - morningTime) / (noonTime - morningTime)),
       interpolate p.morning.g p.noon.g
          ((timeValue - morningTime) / (noonTime - morningTime)),
       interpolate p.morning.b p.noon.b
          ((timeValue - morningTime) / (noonTime - morningTime)),
       interpolate p.morning.ww p.noon.ww
          ((timeValue - morningTime) / (noonTime - morningTime)),
       interpolate p.morning.cw p.noon.cw
          ((timeValue - morningTime) / (noonTime - morningTime))⟩ := by
  simp only [updateCycleColor, if_pos (And.intro h1 h2)]

/-- C1: for every hour in [morningTime, noonTime) the daily cycle is the
per-channel linear interpolation between the morning and noon presets with
factor (hour − morning)/(noon − morning); at hour 9.5 with the default
morning and noon presets each channel is the rounded arithmetic midpoint
(255, 210, 160, 125, 153). -/
theorem dailyCycle_morning_segment :
    (∀ (timeValue : ℚ) (p : NaturalLightPresets),
      morningTime ≤ timeValue → timeValue < noonTime →
      updateCycleColor timeValue p =
        ⟨interpolate p.morning.r p.noon.r
            ((timeValue - morningTime) / (noonTime - morningTime)),
         interpolate p.morning.g p.noon.g
            ((timeValue - morningTime) / (noonTime - morningTime)),
         interpolate p.morning.b p.noon.b
            ((timeValue - morningTime) / (noonTime - morningTime)),
         interpolate p.morning.ww p.noon.ww
            ((timeValue - morningTime) / (noonTime - morningTime)),
         interpolate p.morning.cw p.noon.cw
            ((timeValue - morningTime) / (noonTime - morningTime))⟩) ∧
    updateCycleColor (19/2) defaultPresets = ⟨255, 210, 160, 125, 153⟩ := by
  refine ⟨updateCycleColor_morning, ?_⟩
  rw [updateCycleColor_morning (19/2) defaultPresets
    (by norm_num [morningTime]) (by norm_num [noonTime])]
  simp only [defaultPresets, interpolate, jsRound, morningTime, noonTime,
    RGBWW.mk.injEq]
  norm_num

/-- Witness for C1 at hour 8 with the default presets. -/
theorem dailyCycle_morning_segment_witness :
    updateCycleColor 8 defaultPresets =
      ⟨interpolate defaultPresets.morning.r defaultPresets.noon.r
          ((8 - morningTime) / (noonTime - morningTime)),
       interpolate defaultPresets.morning.g defaultPresets.noon.g
          ((8 - morningTime) / (noonTime - morningTime)),
       interpolate defaultPresets.morning.b defaultPresets.noon.b
          ((8 - morningTime) / (noonTime - morningTime)),
       interpolate defaultPresets.morning.ww defaultPresets.noon.ww
          ((8 - morningTime) / (noonTime - morningTime)),
       interpolate defaultPresets.morning.cw defaultPresets.noon.cw
          ((8 - morningTime) / (noonTime - morningTime))⟩ :=
  dailyCycle_morning_segment.1 8 defaultPresets (by norm_num [morningTime])
    (by norm_num [noonTime])

/-- C2: for every hour strictly before the morning anchor or at/after
the evening anchor, the daily cycle returns exactly the evening preset
(held-night rule). -/
theorem dailyCycle_night_hold :
    ∀ (timeValue : ℚ) (p : NaturalLightPresets),
      (timeValue < morningTime ∨ eveningTime ≤ timeValue) →
      updateCycleColor timeValue p = p.evening := by
  intro timeValue p h
  have hm : ¬ (morningTime ≤ timeValue ∧ timeValue < noonTime) := by
    rcases h with h | h
    · exact fun hc => absurd h (not_lt.mpr hc.1)
    · intro hc
      have : (12 : ℚ) ≤ timeValue := le_trans (by norm_num [eveningTime]) h
      exact absurd hc.2 (not_lt.mpr this)
  have hn : ¬ (noonTime ≤ timeValue ∧ timeValue < eveningTime) := by
    rcases h with h | h
    · intro hc
      have : timeValue < noonTime := lt_of_lt_of_le h (by norm_num [morningTime, noonTime])
      exact absurd hc.1 (not_le.mpr this)
    · exact fun hc => absurd h (not_le.mpr hc.2)
  simp only [updateCycleColor, if_neg hm, if_neg hn]

/-- Witness for C2 at hour 3 with the default presets. -/
theorem dailyCycle_night_hold_witness :
    updateCycleColor 3 defaultPresets = defaultPresets.evening :=
  dailyCycle_night_hold 3 defaultPresets (Or.inl (by norm_num [morningTime]))

/-- A channel value is in range when it lies in [0, 255]. -/
def chanOK (c : ℤ) : Prop := 0 ≤ c ∧ c ≤ 255

instance (c : ℤ) : Decidable (chanOK c) := by unfold chanOK; infer_instance

/-- All five channels of a quintuple are in [0, 255]. -/
def RGBWW.InRange (c : RGBWW) : Prop :=
  chanOK c.r ∧ chanOK c.g ∧ chanOK c.b ∧ chanOK c.ww ∧ chanOK c.cw

instance (c : RGBWW) : Decidable c.InRange := by
  unfold RGBWW.InRange; infer_instance

/-- All three presets are in range. -/
def NaturalLightPresets.InRange (p : NaturalLightPresets) : Prop :=
  p.morning.InRange ∧ p.noon.InRange ∧ p.evening.InRange

instance (p : NaturalLightPresets) : Decidable p.InRange := by
  unfold NaturalLightPresets.InRange; infer_instance

/-- Helper: `interpolate` with in-range endpoints and a factor in [0, 1]
yields an in-range channel. -/
lemma interpolate_chanOK (s e : ℤ) (f : ℚ) (hs : chanOK s) (he : chanOK e)
    (hf0 : 0 ≤ f) (hf1 : f ≤ 1) : chanOK (interpolate s e f) := by
  have hs0 : (0 : ℚ) ≤ (s : ℚ) := by exact_mod_cast hs.1
  have hs1 : (s : ℚ) ≤ 255 := by exact_mod_cast hs.2
  have he0 : (0 : ℚ) ≤ (e : ℚ) := by exact_mod_cast he.1
  have he1 : (e : ℚ) ≤ 255 := by exact_mod_cast he.2
  have hx0 : (0 : ℚ) ≤ (s : ℚ) + ((e : ℚ) - (s : ℚ)) * f := by
    nlinarith [mul_nonneg (sub_nonneg.mpr hf1) hs0, mul_nonneg hf0 he0]
  have hx1 : (s : ℚ) + ((e : ℚ) - (s : ℚ)) * f ≤ 255 := by
    nlinarith [mul_nonneg (sub_nonneg.mpr hf1) (sub_nonneg.mpr hs1),
      mul_nonneg hf0 (sub_nonneg.mpr he1)]
  unfold interpolate jsRound
  constructor
  · exact Int.le_floor.mpr (by push_cast; linarith)
  · exact Int.floor_le_iff.mpr (by push_cast; linarith)

/-- C9: `interpolate` on in-range channel endpoints with any factor in
[0, 1] stays in [0, 255], and hence every channel of the daily-cycle
result is in range, with no clamping step involved. -/
theorem interpolate_and_cycle_in_range :
    (∀ (s e : ℤ) (f : ℚ), chanOK s → chanOK e → 0 ≤ f → f ≤ 1 →
      chanOK (interpolate s e f)) ∧
    (∀ (timeValue : ℚ) (p : NaturalLightPresets), p.InRange →
      (updateCycleColor timeValue p).InRange) := by
  refine ⟨interpolate_chanOK, ?_⟩
  intro timeValue p hp
  obtain ⟨hm, hn, he⟩ := hp
  unfold updateCycleColor
  split_ifs with h1 h2
  · have hf0 : 0 ≤ (timeValue - morningTime) / (noonTime - morningTime) :=
      div_nonneg (sub_nonneg.mpr h1.1) (by norm_num [morningTime, noonTime])
    have hf1 : (timeValue - morningTime) / (noonTime - morningTime) ≤ 1 := by
      rw [div_le_one (by norm_num [morningTime, noonTime])]
      have := h1.2
      simp only [morningTime, noonTime] at *
      linarith
    exact ⟨interpolate_chanOK _ _ _ hm.1 hn.1 hf0 hf1,
      interpolate_chanOK _ _ _ hm.2.1 hn.2.1 hf0 hf1,
      interpolate_chanOK _ _ _ hm.2.2.1 hn.2.2.1 hf0 hf1,
      interpolate_chanOK _ _ _ hm.2.2.2.1 hn.2.2.2.1 hf0 hf1,
      interpolate_chanOK _ _ _ hm.2.2.2.2 hn.2.2.2.2 hf0 hf1⟩
  · have hf0 : 0 ≤ (timeValue - noonTime) / (eveningTime - noonTime) :=
      div_nonneg (sub_nonneg.mpr h2.1) (by norm_num [noonTime, eveningTime])
    have hf1 : (timeValue - noonTime) / (eveningTime - noonTime) ≤ 1 := by
      rw [div_le_one (by norm_num [noonTime, eveningTime])]
      have := h2.2
      simp only [noonTime, eveningTime] at *
      linarith
    exact ⟨interpolate_chanOK _ _ _ hn.1 he.1 hf0 hf1,
      interpolate_chanOK _ _ _ hn.2.1 he.2.1 hf0 hf1,
      interpolate_chanOK _ _ _ hn.2.2.1 he.2.2.1 hf0 hf1,
      interpolate_chanOK _ _ _ hn.2.2.2.1 he.2.2.2.1 hf0 hf1,
      interpolate_chanOK _ _ _ hn.2.2.2.2 he.2.2.2.2 hf0 hf1⟩
  · exact he

/-- Witness for C9: concrete endpoints and factor, and the default
presets at hour 5. -/
theorem interpolate_and_cycle_in_range_witness :
    chanOK (interpolate 100 200 (1/2)) ∧
    (updateCycleColor 5 defaultPresets).InRange :=
  ⟨interpolate_and_cycle_in_range.1 100 200 (1/2) (by norm_num [chanOK])
      (by norm_num [chanOK]) (by norm_num) (by norm_num),
   interpolate_and_cycle_in_range.2 5 defaultPresets (by decide)⟩

/-- `updateLightPreview` from LEDControl.tsx (lines 154–159): the
presentational composite swatch of an RGBWW quintuple, returned as the
numeric (R, G, B) triple that is formatted into the `rgb(...)` string. -/
def updateLightPreview (r g b ww cw : ℤ) : ℚ × ℚ × ℚ :=
  (min 255 ((r : ℚ) + (ww : ℚ) * 0.8),
   min 255 ((g : ℚ) + (ww : ℚ) * 0.6 + (cw : ℚ) * 0.5),
   min 255 ((b : ℚ) + (cw : ℚ) * 0.9))

/-- The spec's composite red channel: `min(255, r + ww*0.8)`. -/
def compositeR (r ww : ℤ) : ℚ := min 255 ((r : ℚ) + (ww : ℚ) * 0.8)

/-- The spec's composite green channel: `min(255, g + ww*0.6 + cw*0.5)`. -/
def compositeG (g ww cw : ℤ) : ℚ :=
  min 255 ((g : ℚ) + (ww : ℚ) * 0.6 + (cw : ℚ) * 0.5)

/-- The spec's composite blue channel: `min(255, b + cw*0.9)`. -/
def compositeB (b cw : ℤ) : ℚ := min 255 ((b : ℚ) + (cw : ℚ) * 0.9)

/-- C6: for every RGBWW quintuple the presentational composite computed
by `updateLightPreview` is exactly the spec's
(compositeR, compositeG, compositeB). -/
theorem updateLightPreview_eq_composite :
    ∀ r g b ww cw : ℤ,
      updateLightPreview r g b ww cw =
        (compositeR r ww, compositeG g ww cw, compositeB b cw) := by
  intro r g b ww cw
  rfl

/-- The full swatch computation `updateCycleLightPreview`: the daily-cycle
quintuple composited by `updateLightPreview`. -/
def updateCycleLightPreview (timeValue : ℚ) (p : NaturalLightPresets) :
    ℚ × ℚ × ℚ :=
  let c := updateCycleColor timeValue p
  updateLightPreview c.r c.g c.b c.ww c.cw

/-- An RGBWW quintuple with rational channel values, the output type of
the blended natural-light computation. -/
structure RGBWWQ where
  r : ℚ
  g : ℚ
  b : ℚ
  ww : ℚ
  cw : ℚ
  deriving DecidableEq

/-- View an integer quintuple as a rational one. -/
def RGBWW.toQ (c : RGBWW) : RGBWWQ := ⟨c.r, c.g, c.b, c.ww, c.cw⟩

/-- Clamp a rational to [0, 255]. -/
def clamp255 (x : ℚ) : ℚ := max 0 (min 255 x)

/-- Modelled from the spec: the per-channel season blend of §4.2,
`output = (1 − seasonWeight) * dailyCycle + seasonWeight * weeklyTarget`,
clamped to [0, 255].  The blending step belongs to the backend LED module
(modules/ledStrip.rs), which is not among the sources here. -/
def blendSpec (seasonWeight : ℚ) (dailyCycle weeklyTarget : RGBWW) : RGBWWQ :=
  ⟨clamp255 ((1 - seasonWeight) * (dailyCycle.r : ℚ) +
      seasonWeight * (weeklyTarget.r : ℚ)),
   clamp255 ((1 - seasonWeight) * (dailyCycle.g : ℚ) +
      seasonWeight * (weeklyTarget.g : ℚ)),
   clamp255 ((1 - seasonWeight) * (dailyCycle.b : ℚ) +
      seasonWeight * (weeklyTarget.b : ℚ)),
   clamp255 ((1 - seasonWeight) * (dailyCycle.ww : ℚ) +
      seasonWeight * (weeklyTarget.ww : ℚ)),
   clamp255 ((1 - seasonWeight) * (dailyCycle.cw : ℚ) +
      seasonWeight * (weeklyTarget.cw : ℚ))⟩

/-- Modelled from the spec: `NaturalLightEngine.compute` (§4.2) — the
daily-cycle quintuple (taken from the frontend code, `updateCycleColor`)
blended with the weekly target using the season weight.  The backend
implementation (modules/ledStrip.rs) is not among the sources here. -/
def compute (hourOfDay : ℚ) (p : NaturalLightPresets) (seasonWeight : ℚ)
    (weeklyTarget : RGBWW) : RGBWWQ :=
  blendSpec seasonWeight (updateCycleColor hourOfDay p) weeklyTarget

/-- Helper: clamping an in-range integer channel is the identity. -/
lemma clamp255_of_chanOK (c : ℤ) (hc : chanOK c) : clamp255 (c : ℚ) = (c : ℚ) := by
  unfold clamp255
  rw [min_eq_right (by exact_mod_cast hc.2), max_eq_right (by exact_mod_cast hc.1)]

/-- Helper: blending with season weight 1 returns the (in-range) weekly
target exactly. -/
lemma blendSpec_one (dc t : RGBWW) (ht : t.InRange) :
    blendSpec 1 dc t = t.toQ := by
  obtain ⟨h1, h2, h3, h4, h5⟩ := ht
  unfold blendSpec RGBWW.toQ
  norm_num
  exact ⟨clamp255_of_chanOK _ h1, clamp255_of_chanOK _ h2,
    clamp255_of_chanOK _ h3, clamp255_of_chanOK _ h4, clamp255_of_chanOK _ h5⟩

/-- C4: for every hour, presets, season weight and weekly target, the LED
output is the per-channel clamped blend of the daily cycle with the
weekly target; with season weight 1 it equals the (in-range) weekly
target regardless of hour. -/
theorem compute_blend :
    (∀ (hourOfDay : ℚ) (p : NaturalLightPresets) (seasonWeight : ℚ)
        (weeklyTarget : RGBWW),
      compute hourOfDay p seasonWeight weeklyTarget =
        blendSpec seasonWeight (updateCycleColor hourOfDay p) weeklyTarget) ∧
    (∀ (hourOfDay : ℚ) (p : NaturalLightPresets) (weeklyTarget : RGBWW),
      weeklyTarget.InRange →
      compute hourOfDay p 1 weeklyTarget = weeklyTarget.toQ) := by
  refine ⟨fun _ _ _ _ => rfl, ?_⟩
  intro hourOfDay p weeklyTarget ht
  exact blendSpec_one _ _ ht

/-- Witness for C4 at hour 2, season weight 1, target (10, 20, 30, 40, 50). -/
theorem compute_blend_witness :
    compute 2 defaultPresets 1 ⟨10, 20, 30, 40, 50⟩ =
      RGBWW.toQ ⟨10, 20, 30, 40, 50⟩ :=
  compute_blend.2 2 defaultPresets ⟨10, 20, 30, 40, 50⟩ (by decide)

/-- Helper: the daily cycle at the noon anchor is exactly the noon
preset (second branch, factor 0). -/
lemma updateCycleColor_noon (p : NaturalLightPresets) :
    updateCycleColor noonTime p = p.noon := by
  have hz : ∀ s e : ℤ, interpolate s e ((noonTime - noonTime) / (eveningTime - noonTime)) = s := by
    intro s e
    unfold interpolate jsRound
    rw [sub_self, zero_div, mul_zero, add_zero, add_comm, Int.floor_add_int]
    norm_num
  unfold updateCycleColor
  rw [if_neg (by norm_num [morningTime, noonTime]),
    if_pos (by norm_num [noonTime, eveningTime])]
  simp only [hz]

/-- C3: for every in-range presets value and every weekly target,
evaluating the blended computation at the noon anchor with season
weight 0 yields exactly the noon preset. -/
theorem compute_at_noon_weight_zero :
    ∀ (p : NaturalLightPresets) (weeklyTarget : RGBWW), p.InRange →
      compute noonTime p 0 weeklyTarget = p.noon.toQ := by
  intro p weeklyTarget hp
  obtain ⟨_, hn, _⟩ := hp
  obtain ⟨h1, h2, h3, h4, h5⟩ := hn
  unfold compute
  rw [updateCycleColor_noon]
  unfold blendSpec RGBWW.toQ
  norm_num
  exact ⟨clamp255_of_chanOK _ h1, clamp255_of_chanOK _ h2,
    clamp255_of_chanOK _ h3, clamp255_of_chanOK _ h4, clamp255_of_chanOK _ h5⟩

/-- Witness for C3 with the default presets and target (1, 2, 3, 4, 5). -/
theorem compute_at_noon_weight_zero_witness :
    compute noonTime defaultPresets 0 ⟨1, 2, 3, 4, 5⟩ =
      defaultPresets.noon.toQ :=
  compute_at_noon_weight_zero defaultPresets ⟨1, 2, 3, 4, 5⟩ (by decide)

/-- The `LEDStatus` interface of LEDControl.tsx: power flag, natural-mode
flag, five channel values and the season weight. -/
structure LEDStatus where
  power : Bool
  use_natural : Bool
  r : ℤ
  g : ℤ
  b : ℤ
  ww : ℤ
  cw : ℤ
  season_weight : ℚ
  deriving DecidableEq

/-- Successful `setLEDPower`: `setLedStatus(prev => ({ ...prev, power }))`. -/
def setLEDPower (power : Bool) (prev : LEDStatus) : LEDStatus :=
  { prev with power := power }

/-- Successful `setLEDColor`:
`setLedStatus(prev => ({ ...prev, r, g, b, ww, cw }))`. -/
def setLEDColor (r g b ww cw : ℤ) (prev : LEDStatus) : LEDStatus :=
  { prev with r := r, g := g, b := b, ww := ww, cw := cw }

/-- The JSON body sent by `setNaturalLightSettings`:
`{ override_settings, season_weight }`. -/
structure NaturalLightRequest where
  override_settings : Bool
  season_weight : ℚ
  deriving DecidableEq

/-- Successful `setNaturalLightSettings`: sends the request body on the
wire and updates the local state with
`use_natural: !override_settings, season_weight`. -/
def setNaturalLightSettings (override_settings : Bool) (season_weight : ℚ)
    (prev : LEDStatus) : NaturalLightRequest × LEDStatus :=
  (⟨override_settings, season_weight⟩,
   { prev with use_natural := !override_settings,
               season_weight := season_weight })

/-- The internal mode enum of the spec (§9): Natural iff `use_natural`. -/
inductive Mode where
  | Natural : Mode
  | Manual : Mode
  deriving DecidableEq

/-- The mode exposed by an LED state. -/
def LEDStatus.mode (s : LEDStatus) : Mode :=
  if s.use_natural then Mode.Natural else Mode.Manual

/-- C7: the wire flag `override_settings` is exactly the negation of the
resulting `use_natural` field; after `setNaturalLightSettings o w` the
state has `use_natural = !o` and `season_weight = w`, and the mode is
Natural iff `o` is false. -/
theorem setNaturalLightSettings_dual_flag :
    ∀ (o : Bool) (w : ℚ) (prev : LEDStatus),
      (setNaturalLightSettings o w prev).1.override_settings =
        !(setNaturalLightSettings o w prev).2.use_natural ∧
      (setNaturalLightSettings o w prev).2.use_natural = !o ∧
      (setNaturalLightSettings o w prev).2.season_weight = w ∧
      ((setNaturalLightSettings o w prev).2.mode = Mode.Natural ↔ o = false) := by
  intro o w prev
  cases o <;> simp [setNaturalLightSettings, LEDStatus.mode]

/-- C10: `setLEDColor` changes only the five channel fields and
`setLEDPower` changes only the power field. -/
theorem setters_frame :
    (∀ (prev : LEDStatus) (r g b ww cw : ℤ),
      (setLEDColor r g b ww cw prev).power = prev.power ∧
      (setLEDColor r g b ww cw prev).use_natural = prev.use_natural ∧
      (setLEDColor r g b ww cw prev).season_weight = prev.season_weight ∧
      (setLEDColor r g b ww cw prev).r = r ∧
      (setLEDColor r g b ww cw prev).g = g ∧
      (setLEDColor r g b ww cw prev).b = b ∧
      (setLEDColor r g b ww cw prev).ww = ww ∧
      (setLEDColor r g b ww cw prev).cw = cw) ∧
    (∀ (prev : LEDStatus) (power : Bool),
      (setLEDPower power prev).power = power ∧
      (setLEDPower power prev).use_natural = prev.use_natural ∧
      (setLEDPower power prev).r = prev.r ∧
      (setLEDPower power prev).g = prev.g ∧
      (setLEDPower power prev).b = prev.b ∧
      (setLEDPower power prev).ww = prev.ww ∧
      (setLEDPower power prev).cw = prev.cw ∧
      (setLEDPower power prev).season_weight = prev.season_weight) := by
  exact ⟨fun prev r g b ww cw => ⟨rfl, rfl, rfl, rfl, rfl, rfl, rfl, rfl⟩,
    fun prev power => ⟨rfl, rfl, rfl, rfl, rfl, rfl, rfl, rfl⟩⟩

/-- Modelled from the spec: the OverheatGuard configuration (§4.3) — the
temperature maximum, the hysteresis margin, and the required number of
consecutive safe ticks.  The guard lives in the backend control module
(modules/lightControl.rs), which is not among the sources here. -/
structure OverheatConfig where
  maximum : ℤ
  hysteresisMargin : ℤ
  safeTicksRequired : ℕ
  deriving DecidableEq

/-- Modelled from the spec: the OverheatState of §3 — the tripped latch
and the consecutive-safe-tick counter. -/
structure OverheatState where
  tripped : Bool
  consecutiveSafeTicks : ℕ
  deriving DecidableEq

/-- Modelled from the spec (§4.3): one control tick of the OverheatGuard.
Normal → Tripped fires when the basking temperature exceeds the maximum;
Tripped → Normal fires only once the temperature has stayed below
(maximum − hysteresisMargin) for `safeTicksRequired` consecutive ticks,
and any tick at or above that margin resets the counter to zero. -/
def guardStep (cfg : OverheatConfig) (s : OverheatState) (temp : ℤ) :
    OverheatState :=
  if s.tripped then
    if temp < cfg.maximum - cfg.hysteresisMargin then
      if cfg.safeTicksRequired ≤ s.consecutiveSafeTicks + 1 then ⟨false, 0⟩
      else ⟨true, s.consecutiveSafeTicks + 1⟩
    else ⟨true, 0⟩
  else if cfg.maximum < temp then ⟨true, 0⟩
  else s

/-- Run the guard over a sequence of per-tick temperatures. -/
def guardRun (cfg : OverheatConfig) (s : OverheatState) (temps : List ℤ) :
    OverheatState :=
  temps.foldl (guardStep cfg) s

/-- A freshly tripped guard state: latched with a zero safe counter. -/
def trippedFresh : OverheatState := ⟨true, 0⟩

/-- Helper: a tripped guard seeing a safe temperature with the counter
still short of the requirement increments the counter. -/
lemma guardStep_tripped_safe (cfg : OverheatConfig) (c : ℕ) (temp : ℤ)
    (h : temp < cfg.maximum - cfg.hysteresisMargin)
    (hlt : c + 1 < cfg.safeTicksRequired) :
    guardStep cfg ⟨true, c⟩ temp = ⟨true, c + 1⟩ := by
  unfold guardStep
  rw [if_pos rfl, if_pos h,
    if_neg (show ¬ cfg.safeTicksRequired ≤ c + 1 by omega)]

/-- Helper: a tripped guard seeing a safe temperature that completes the
required count un-trips. -/
lemma guardStep_tripped_done (cfg : OverheatConfig) (c : ℕ) (temp : ℤ)
    (h : temp < cfg.maximum - cfg.hysteresisMargin)
    (hge : cfg.safeTicksRequired ≤ c + 1) :
    guardStep cfg ⟨true, c⟩ temp = ⟨false, 0⟩ := by
  unfold guardStep
  rw [if_pos rfl, if_pos h, if_pos hge]

/-- Helper: a tripped guard seeing a temperature at or above the
hysteresis margin stays tripped and resets the counter to zero. -/
lemma guardStep_tripped_reset (cfg : OverheatConfig) (c : ℕ) (temp : ℤ)
    (h : cfg.maximum - cfg.hysteresisMargin ≤ temp) :
    guardStep cfg ⟨true, c⟩ temp = ⟨true, 0⟩ := by
  unfold guardStep
  rw [if_pos rfl, if_neg (not_lt.mpr h)]

/-- Helper: while tripped, a run that is too short to accumulate
`safeTicksRequired` consecutive safe ticks leaves the guard tripped. -/
lemma guardRun_stays_tripped (cfg : OverheatConfig) :
    ∀ (temps : List ℤ) (c : ℕ),
      c + temps.length < cfg.safeTicksRequired →
      (guardRun cfg ⟨true, c⟩ temps).tripped = true := by
  intro temps
  induction temps with
  | nil => intro c _; rfl
  | cons t ts ih =>
    intro c hlen
    simp only [List.length_cons] at hlen
    show (guardRun cfg (guardStep cfg ⟨true, c⟩ t) ts).tripped = true
    by_cases hsafe : t < cfg.maximum - cfg.hysteresisMargin
    · rw [guardStep_tripped_safe cfg c t hsafe (by omega)]
      exact ih (c + 1) (by omega)
    · rw [guardStep_tripped_reset cfg c t (not_lt.mp hsafe)]
      exact ih 0 (by omega)

/-- Helper: while tripped with counter `c`, a run of `j` consecutive safe
ticks with `c + j = safeTicksRequired` un-trips the guard at the last
tick. -/
lemma guardRun_untrips (cfg : OverheatConfig) :
    ∀ (j c : ℕ), c + j = cfg.safeTicksRequired → 1 ≤ j →
      (guardRun cfg ⟨true, c⟩
         (List.replicate j (cfg.maximum - cfg.hysteresisMargin - 1))).tripped
        = false := by
  intro j
  induction j with
  | zero => omega
  | succ n ih =>
    intro c hc _
    simp only [List.replicate_succ]
    show (guardRun cfg
      (guardStep cfg ⟨true, c⟩ (cfg.maximum - cfg.hysteresisMargin - 1))
      (List.replicate n (cfg.maximum - cfg.hysteresisMargin - 1))).tripped
        = false
    rcases Nat.eq_zero_or_pos n with hn | hn
    · subst hn
      rw [guardStep_tripped_done cfg c _ (by omega) (by omega)]
      rfl
    · rw [guardStep_tripped_safe cfg c _ (by omega) (by omega)]
      exact ih (c + 1) (by omega) hn

/-- C5: from the freshly tripped state the guard stays tripped over any
temperature trace shorter than `safeTicksRequired`; any single tick at or
above (maximum − hysteresisMargin) while tripped resets the counter to
zero and stays tripped; and a run of exactly `safeTicksRequired`
consecutive ticks at temperature (maximum − hysteresisMargin − 1)
transitions the guard to Normal. -/
theorem overheatGuard_hysteresis (cfg : OverheatConfig)
    (hK : 1 ≤ cfg.safeTicksRequired) :
    (∀ temps : List ℤ, temps.length < cfg.safeTicksRequired →
      (guardRun cfg trippedFresh temps).tripped = true) ∧
    (∀ (s : OverheatState) (temp : ℤ), s.tripped = true →
      cfg.maximum - cfg.hysteresisMargin ≤ temp →
      guardStep cfg s temp = ⟨true, 0⟩) ∧
    (guardRun cfg trippedFresh
       (List.replicate cfg.safeTicksRequired
         (cfg.maximum - cfg.hysteresisMargin - 1))).tripped = false := by
  refine ⟨?_, ?_, ?_⟩
  · intro temps hlen
    exact guardRun_stays_tripped cfg temps 0 (by omega)
  · intro s temp hs htemp
    unfold guardStep
    rw [if_pos hs, if_neg (not_lt.mpr htemp)]
  · exact guardRun_untrips cfg cfg.safeTicksRequired 0 (by omega) hK

/-- Witness for C5 with maximum 40, hysteresis margin 2 and three
required safe ticks: three ticks at 37 un-trip the guard. -/
theorem overheatGuard_hysteresis_witness :
    (guardRun ⟨40, 2, 3⟩ trippedFresh (List.replicate 3 37)).tripped = false :=
  (overheatGuard_hysteresis ⟨40, 2, 3⟩ (by decide)).2.2

/-- Per-week settings (the `WeekSettings` interface of the schedule page):
six window start/end times, stored as minutes since midnight, and five
LED channel values. -/
structure WeekSettings where
  uv1Start : ℕ
  uv1End : ℕ
  uv2Start : ℕ
  uv2End : ℕ
  heatStart : ℕ
  heatEnd : ℕ
  red : ℤ
  green : ℤ
  blue : ℤ
  cw : ℤ
  ww : ℤ
  deriving DecidableEq

/-- A valid time-of-day lies between 00:00 and 24:00 (1440 minutes). -/
def validTime (m : ℕ) : Prop := m ≤ 1440

instance (m : ℕ) : Decidable (validTime m) := by unfold validTime; infer_instance

/-- A week record is valid when all six times are valid times-of-day and
all five channels lie in [0, 255]. -/
def validWeekSettings (s : WeekSettings) : Prop :=
  validTime s.uv1Start ∧ validTime s.uv1End ∧ validTime s.uv2Start ∧
  validTime s.uv2End ∧ validTime s.heatStart ∧ validTime s.heatEnd ∧
  chanOK s.red ∧ chanOK s.green ∧ chanOK s.blue ∧ chanOK s.cw ∧ chanOK s.ww

instance (s : WeekSettings) : Decidable (validWeekSettings s) := by
  unfold validWeekSettings; infer_instance

/-- The default week record used to populate every week in the schedule
page's initial state: windows 06:00–18:00 and 08:00–20:00, LED target
(255, 200, 100) with cool-white 150 and warm-white 200. -/
def defaultWeekSettings : WeekSettings :=
  ⟨360, 1080, 480, 1200, 480, 1200, 255, 200, 100, 150, 200⟩

/-- The schedule table's initial state: one default record per week
1..52 and nothing else (the `useState` initializer of the Schedule
component). -/
def initialWeeklySettings : ℕ → Option WeekSettings := fun week =>
  if 1 ≤ week ∧ week ≤ 52 then some defaultWeekSettings else none

/-- Modelled from the spec: `ScheduleStore.update` (§4.1) — validates the
week index and the record (times well-formed, channels in range) and on
success replaces that week's record, leaving all state unchanged on
failure.  The validating store lives in the backend (modules/schedule.rs),
which is not among the sources here; the frontend mirror only forwards
records per week. -/
def updateSchedule (week : ℕ) (s : WeekSettings)
    (st : ℕ → Option WeekSettings) : ℕ → Option WeekSettings :=
  if 1 ≤ week ∧ week ≤ 52 ∧ validWeekSettings s then
    fun k => if k = week then some s else st k
  else st

/-- The schedule invariant: a record exists exactly for the weeks 1..52
(the table is a map keyed by week number, so each week has at most one
record by construction), and every stored record is valid. -/
def ScheduleInv (st : ℕ → Option WeekSettings) : Prop :=
  (∀ w, (st w).isSome ↔ (1 ≤ w ∧ w ≤ 52)) ∧
  (∀ w r, st w = some r → validWeekSettings r)

/-- C8: the schedule invariant holds of the initial state, is preserved
by every update, and implies that every week 1..52 has a record whose
channels are in [0, 255] and whose times are valid. -/
theorem schedule_invariant :
    ScheduleInv initialWeeklySettings ∧
    (∀ (st : ℕ → Option WeekSettings) (week : ℕ) (s : WeekSettings),
      ScheduleInv st → ScheduleInv (updateSchedule week s st)) ∧
    (∀ st : ℕ → Option WeekSettings, ScheduleInv st →
      ∀ w, 1 ≤ w → w ≤ 52 →
        ∃ r, st w = some r ∧ validWeekSettings r) := by
  refine ⟨⟨?_, ?_⟩, ?_, ?_⟩
  · intro w
    unfold initialWeeklySettings
    split_ifs with h
    · simpa using h
    · simpa using h
  · intro w r hr
    unfold initialWeeklySettings at hr
    by_cases h : 1 ≤ w ∧ w ≤ 52
    · rw [if_pos h] at hr
      cases hr
      decide
    · rw [if_neg h] at hr
      cases hr
  · intro st week s hst
    unfold updateSchedule
    split_ifs with h
    · obtain ⟨h1, h2, h3⟩ := h
      refine ⟨fun w => ?_, fun w r hr => ?_⟩
      · show (if w = week then some s else st w).isSome ↔ (1 ≤ w ∧ w ≤ 52)
        by_cases hw : w = week
        · rw [if_pos hw, hw]
          simpa using ⟨h1, h2⟩
        · rw [if_neg hw]
          exact hst.1 w
      · replace hr : (if w = week then some s else st w) = some r := hr
        by_cases hw : w = week
        · rw [if_pos hw] at hr
          cases hr
          exact h3
        · rw [if_neg hw] at hr
          exact hst.2 w r hr
    · exact hst
  · intro st hst w hw1 hw2
    have hsome : (st w).isSome := (hst.1 w).mpr ⟨hw1, hw2⟩
    obtain ⟨r, hr⟩ := Option.isSome_iff_exists.mp hsome
    exact ⟨r, hr, hst.2 w r hr⟩

/-- Witness for C8: updating week 1 of the initial table with a valid
record keeps the invariant, and week 10 of the updated table still holds
a valid record. -/
theorem schedule_invariant_witness :
    ∃ r, updateSchedule 1 defaultWeekSettings initialWeeklySettings 10 =
        some r ∧ validWeekSettings r :=
  schedule_invariant.2.2
    (updateSchedule 1 defaultWeekSettings initialWeeklySettings)
    (schedule_invariant.2.1 initialWeeklySettings 1 defaultWeekSettings
      schedule_invariant.1)
    10 (by decide) (by decide)

end TerraControl
